import Mathlib

/-!
Verification of the interactive vector canvas engine of EngiVibe
(`src/components/DetailModal.tsx`, `Canvas` component).

The component's state and event handlers are shallowly embedded below.
JavaScript numbers are modelled as exact rationals (`ℚ`): floating-point
representation error is outside the scope of this development, as is the
pixel-space panning math (which no claim exercises).  Handlers become pure
functions from state to state; each React `useState` field becomes a field
of `CanvasState`, and one event handler invocation is one transition.
String operations of the host language (`trim`, split on whitespace,
`Number`, `startsWith`) are modelled on the underlying character lists so
that every definition evaluates by kernel reduction.
-/

/-- A point in world coordinates, as produced by the snapped cursor. -/
structure Pt where
  x : ℚ
  y : ℚ
deriving DecidableEq

/-- Payload of a user-drawn shape.  In the source, `UserShape.data` is an
untyped object whose fields depend on `UserShape.type`; the tag of this
inductive plays the role of the `type` field. -/
inductive ShapeData where
  | rect (x y w h startX startY : ℚ)
  | circle (cx cy r : ℚ)
  | polyline (points : List Pt)
  | arc (p1 p2 control : Pt)
deriving DecidableEq

/-- A user-drawn annotation shape.  `id` models `Date.now().toString()`;
since it comes from the ambient clock it is supplied to each event as a
parameter `now`. -/
structure UserShape where
  id : ℕ
  data : ShapeData
  color : String
deriving DecidableEq

/-- A committed measurement: endpoints and the stored distance
(`parseFloat(distance.toFixed(3))` in the source). -/
structure Measurement where
  p1 : Pt
  p2 : Pt
  distance : ℚ
deriving DecidableEq

/-- The viewport rectangle (`viewState` in the source). -/
structure ViewState where
  x : ℚ
  y : ℚ
  w : ℚ
  h : ℚ
deriving DecidableEq

/-- The active tool (`ToolType` in the source; string literals there). -/
inductive ToolType where
  | select
  | measure
  | detail
  | draw_rect
  | draw_circle
  | draw_polyline
  | draw_arc
deriving DecidableEq

/-- A rendered element's bounding box (`getBBox()` result). -/
structure BBox where
  x : ℚ
  y : ℚ
  width : ℚ
  height : ℚ
deriving DecidableEq

/-- The inspector selection (`SelectedElement` in the source). -/
structure SelectedElement where
  id : String
  type : String
  attributes : List (String × String)
  bbox : BBox
deriving DecidableEq

/-- The canvas component's state: one field per `useState` hook that the
claims touch.  `cursorPos` is the snapped world cursor from the last
pointer move; `history`/`future` are the undo/redo stacks of whole
shape-list snapshots. -/
structure CanvasState where
  viewState : Option ViewState
  isPanning : Bool
  cursorPos : Option Pt
  activeTool : ToolType
  measureStart : Option Pt
  measurements : List Measurement
  userShapes : List UserShape
  currentShape : Option UserShape
  drawStep : ℕ
  history : List (List UserShape)
  future : List (List UserShape)
  selectedElement : Option SelectedElement
deriving DecidableEq

/-- The stroke color given to every user shape in the source. -/
def shapeGreen : String := "#10b981"

/-! ### Arithmetic helpers for the JavaScript numeric built-ins -/

/-- Largest `k ≤ fuel` with `k * k ≤ n` (plain structural search, so the
kernel can evaluate it). -/
def natSqrtAux : ℕ → ℕ → ℕ
  | 0, _ => 0
  | (k+1), n => if (k+1)*(k+1) ≤ n then k+1 else natSqrtAux k n

/-- Integer square root, `⌊√n⌋`. -/
def natSqrt (n : ℕ) : ℕ := natSqrtAux n n

/-- Models `Math.hypot` and `Math.sqrt` results as rationals.  For a
nonnegative `q = a / b` it returns `⌊√(a·b)⌋ / b`, which is exact whenever
`a·b` is a perfect square (true at every concrete input the claims use)
and a floor-style approximation otherwise.  Threshold comparisons against
hypotenuse values are instead embedded on squares (see `onMouseDown`),
which is exact for the real-number semantics. -/
def ratSqrt (q : ℚ) : ℚ := (natSqrt (q.num.toNat * q.den) : ℚ) / (q.den : ℚ)

/-- Models `parseFloat(x.toFixed(3))`: rounding to 3 decimal places. -/
def round3 (q : ℚ) : ℚ := (round (q * 1000) : ℤ) / 1000

/-! ### String helpers modelling the JavaScript built-ins

These mirror `String.prototype.trim`, `split(/\s+/)`, `Number` and
`startsWith` on the character-list representation, so that they evaluate
by kernel reduction. -/

/-- Models `s.trim()`: strips leading and trailing whitespace. -/
def listTrim (l : List Char) : List Char :=
  ((l.dropWhile Char.isWhitespace).reverse.dropWhile Char.isWhitespace).reverse

/-- Collects maximal runs of non-whitespace characters. -/
def splitWsAux : List Char → List Char → List String
  | [], acc => if acc.isEmpty then [] else [String.mk acc.reverse]
  | c :: cs, acc =>
      if c.isWhitespace then
        if acc.isEmpty then splitWsAux cs []
        else String.mk acc.reverse :: splitWsAux cs []
      else splitWsAux cs (c :: acc)

/-- Models `t.split(/\s+/)` for an already-trimmed string `t`: the list of
whitespace-separated tokens, except that the empty string yields `[""]`
(as in JavaScript). -/
def jsSplitWs (s : String) : List String :=
  if s.data.isEmpty then [""] else splitWsAux s.data []

/-- Models `s.trim()` on `String`. -/
def jsTrim (s : String) : String := String.mk (listTrim s.data)

/-- Models `a.startsWith(b)`. -/
def jsStartsWith (s pre : String) : Bool := pre.data.isPrefixOf s.data

/-- Numeric value of a digit run. -/
def digitsVal (l : List Char) : ℕ :=
  l.foldl (fun acc c => acc * 10 + (c.toNat - 48)) 0

/-- Parses an unsigned decimal literal `digits [ '.' digits ]` with at
least one digit. -/
def parseDecimalChars (cs : List Char) : Option ℚ :=
  let intPart := cs.takeWhile Char.isDigit
  let rest := cs.dropWhile Char.isDigit
  match rest with
  | [] => if intPart.isEmpty then none else some ((digitsVal intPart : ℕ) : ℚ)
  | '.' :: frac =>
      if frac.all Char.isDigit && (!intPart.isEmpty || !frac.isEmpty) then
        some (((digitsVal intPart : ℕ) : ℚ) +
          ((digitsVal frac : ℕ) : ℚ) / ((10 : ℚ) ^ frac.length))
      else none
  | _ => none

/-- Models `Number(token)` on the decimal subset of JavaScript number
syntax (optional sign, digits, optional fraction; the empty or blank
string is 0).  Exponent, hexadecimal and `Infinity` forms are treated as
`NaN`; no claim input uses them.  `none` stands for `NaN`. -/
def jsNumber (s : String) : Option ℚ :=
  let t := listTrim s.data
  if t.isEmpty then some 0
  else
    match t with
    | '-' :: rest => (parseDecimalChars rest).map (fun q => -q)
    | '+' :: rest => parseDecimalChars rest
    | cs => parseDecimalChars cs

/-- Embeds the `baseViewBox` memo: `viewBox.trim().split(/\s+/).map(Number)`
adopted verbatim when it has exactly four entries, else the default
`[0, 0, 100, 100]`.  A `none` entry stands for `NaN`. -/
def baseViewBox (viewBox : String) : List (Option ℚ) :=
  let parts := (jsSplitWs (jsTrim viewBox)).map jsNumber
  if parts.length = 4 then parts else [some 0, some 0, some 100, some 100]

/-! ### History operations (`saveState`, `handleUndo`, `handleRedo`) -/

/-- Embeds `saveState`: pushes the current (pre-change) shape list onto the
undo stack and clears the redo stack. -/
def saveState (s : CanvasState) : CanvasState :=
  { s with history := s.history ++ [s.userShapes], future := [] }

/-- One full commit as performed at every mutation site in the source
(`saveState()` followed by adopting a new shape list). -/
def commitShapes (s : CanvasState) (newShapes : List UserShape) : CanvasState :=
  { saveState s with userShapes := newShapes }

/-- Embeds `handleUndo`: no-op on an empty undo stack, otherwise pushes the
current list onto the front of the redo stack and pops the most recent
undo entry. -/
def handleUndo (s : CanvasState) : CanvasState :=
  match s.history.getLast? with
  | none => s
  | some previous =>
      { s with future := s.userShapes :: s.future,
               userShapes := previous,
               history := s.history.dropLast }

/-- Embeds `handleRedo`: no-op on an empty redo stack, otherwise pushes the
current list onto the undo stack and pops the front of the redo stack. -/
def handleRedo (s : CanvasState) : CanvasState :=
  match s.future with
  | [] => s
  | next :: rest =>
      { s with history := s.history ++ [s.userShapes],
               userShapes := next,
               future := rest }

/-! ### Viewport operations -/

/-- Embeds `handleZoom`: divides the dimensions by `factor` and shifts the
origin by half the change, keeping the center fixed; no-op when the
viewport is not yet initialised. -/
def handleZoom (factor : ℚ) (s : CanvasState) : CanvasState :=
  match s.viewState with
  | none => s
  | some v =>
      let newW := v.w / factor
      let newH := v.h / factor
      let dx := (v.w - newW) / 2
      let dy := (v.h - newH) / 2
      { s with viewState := some ⟨v.x + dx, v.y + dy, newW, newH⟩ }

/-- Embeds `handleZoomIn`. -/
def handleZoomIn (s : CanvasState) : CanvasState := handleZoom 1.2 s

/-- Embeds `handleZoomOut` (note the source passes `0.8`). -/
def handleZoomOut (s : CanvasState) : CanvasState := handleZoom 0.8 s

/-- Embeds the reset `useEffect` keyed on `baseViewBox`: when a new
document's bounds arrive, the viewport is set to the base bounds and the
annotation state is emptied, all inside one effect (the six state updates
are batched into a single transition, so no intermediate state exists in
the model).  `b` is the parsed base view box. -/
def resetForDocument (b : ViewState) (s : CanvasState) : CanvasState :=
  { s with viewState := some b,
           measurements := [],
           userShapes := [],
           history := [],
           future := [],
           selectedElement := none }

/-! ### Drawing and gesture handlers -/

/-- Embeds `handleDrawingStart`.  The unreachable arm (a polyline click
while `currentShape` holds a non-polyline, which no handler sequence can
produce) leaves the state unchanged. -/
def handleDrawingStart (now : ℕ) (tool : ToolType) (pos : Pt) (s : CanvasState) :
    CanvasState :=
  match tool with
  | ToolType.draw_rect =>
      let sh : UserShape := ⟨now, ShapeData.rect pos.x pos.y 0 0 pos.x pos.y, shapeGreen⟩
      { s with currentShape := some sh }
  | ToolType.draw_circle =>
      let sh : UserShape := ⟨now, ShapeData.circle pos.x pos.y 0, shapeGreen⟩
      { s with currentShape := some sh }
  | ToolType.draw_polyline =>
      match s.currentShape with
      | none =>
          let sh : UserShape := ⟨now, ShapeData.polyline [pos, pos], shapeGreen⟩
          { s with currentShape := some sh }
      | some c =>
          match c.data with
          | ShapeData.polyline pts =>
              let sh : UserShape := { c with data := ShapeData.polyline (pts ++ [pos]) }
              { s with currentShape := some sh }
          | _ => s
  | ToolType.draw_arc =>
      if s.drawStep = 0 then
        let sh : UserShape := ⟨now, ShapeData.arc pos pos pos, shapeGreen⟩
        { s with currentShape := some sh, drawStep := 1 }
      else if s.drawStep = 1 then { s with drawStep := 2 }
      else if s.drawStep = 2 then
        match s.currentShape with
        | some c =>
            let s1 := saveState s
            { s1 with userShapes := s1.userShapes ++ [c], currentShape := none, drawStep := 0 }
        | none => { s with currentShape := none, drawStep := 0 }
      else s
  | _ => s

/-- Embeds `updateDrawingPreview`: live update of the in-progress shape
from the current cursor position. -/
def updateDrawingPreview (pos : Pt) (s : CanvasState) : CanvasState :=
  match s.currentShape with
  | none => s
  | some c =>
      match c.data with
      | ShapeData.rect _ _ _ _ startX startY =>
          let w := pos.x - startX
          let h := pos.y - startY
          let d := ShapeData.rect (if w < 0 then pos.x else startX)
            (if h < 0 then pos.y else startY) (abs w) (abs h) startX startY
          let sh : UserShape := { c with data := d }
          { s with currentShape := some sh }
      | ShapeData.circle cx cy _ =>
          let d := ShapeData.circle cx cy (ratSqrt ((pos.x - cx) ^ 2 + (pos.y - cy) ^ 2))
          let sh : UserShape := { c with data := d }
          { s with currentShape := some sh }
      | ShapeData.polyline pts =>
          let sh : UserShape := { c with data := ShapeData.polyline (pts.dropLast ++ [pos]) }
          { s with currentShape := some sh }
      | ShapeData.arc p1 p2 _ =>
          if s.drawStep = 1 then
            let mid : Pt := ⟨(p1.x + pos.x) / 2, (p1.y + pos.y) / 2⟩
            let sh : UserShape := { c with data := ShapeData.arc p1 pos mid }
            { s with currentShape := some sh }
          else if s.drawStep = 2 then
            let sh : UserShape := { c with data := ShapeData.arc p1 p2 pos }
            { s with currentShape := some sh }
          else s

/-- Embeds the cursor-snapping and preview-update part of `onMouseMove`:
`pos` is the already-snapped world cursor.  The pixel-space panning branch
(select tool while panning) shifts only the viewport and is exercised by
no claim, so it is not modelled. -/
def onMouseMoveWorld (pos : Pt) (s : CanvasState) : CanvasState :=
  updateDrawingPreview pos { s with cursorPos := some pos }

/-- Embeds `onMouseDown` for world-space effects.  `now` models
`Date.now()`, `button` the mouse button.  The measure-tool threshold
`Math.hypot(dx, dy) > 0.01` is embedded as `dx² + dy² > 0.01²`, which is
equivalent over the reals; the stored distance models
`parseFloat(hypot.toFixed(3))`. -/
def onMouseDown (now : ℕ) (button : ℕ) (s : CanvasState) : CanvasState :=
  if button ≠ 0 then s
  else
    match s.cursorPos with
    | none => s
    | some pos =>
        match s.activeTool with
        | ToolType.measure =>
            match s.measureStart with
            | none => { s with measureStart := some pos }
            | some ms =>
                let d2 := (pos.x - ms.x) ^ 2 + (pos.y - ms.y) ^ 2
                let m : Measurement := ⟨ms, pos, round3 (ratSqrt d2)⟩
                if d2 > (1 / 100) ^ 2 then
                  { s with measurements := s.measurements ++ [m], measureStart := none }
                else { s with measureStart := none }
        | ToolType.draw_rect => handleDrawingStart now ToolType.draw_rect pos s
        | ToolType.draw_circle => handleDrawingStart now ToolType.draw_circle pos s
        | ToolType.draw_polyline => handleDrawingStart now ToolType.draw_polyline pos s
        | ToolType.draw_arc => handleDrawingStart now ToolType.draw_arc pos s
        | ToolType.select => { s with isPanning := true }
        | ToolType.detail => s

/-- Width field of a rect payload; `0` stands for the JavaScript
`undefined` read `data.w` performs on any other variant (for which
`undefined > 0` is false, as is `0 > 0`). -/
def dataW : ShapeData → ℚ
  | ShapeData.rect _ _ w _ _ _ => w
  | _ => 0

/-- Radius field of a circle payload; `0` stands for `undefined` as in
`dataW`. -/
def dataR : ShapeData → ℚ
  | ShapeData.circle _ _ r => r
  | _ => 0

/-- Embeds `onMouseUp`: stops panning and, with a drag-drawing tool and an
in-progress shape, commits the shape exactly when the validity test
(`data.w > 0` for rect, `data.r > 0` for circle) passes, pushing one
history frame; the shape is cleared either way.  The select-tool click
branch delegates to `handleElementClick` (modelled separately) and writes
only the selection. -/
def onMouseUp (s : CanvasState) : CanvasState :=
  let s0 := { s with isPanning := false }
  match s.currentShape with
  | some c =>
      if s.activeTool = ToolType.draw_rect ∨ s.activeTool = ToolType.draw_circle then
        let valid : Bool :=
          if s.activeTool = ToolType.draw_rect then decide (dataW c.data > 0)
          else decide (dataR c.data > 0)
        if valid then
          let s1 := saveState s0
          { s1 with userShapes := s1.userShapes ++ [c], currentShape := none }
        else { s0 with currentShape := none }
      else s0
  | none => s0

/-- Embeds `onDoubleClick`: with the polyline tool and an in-progress
shape, commits it with its current vertex list and pushes one history
frame. -/
def onDoubleClick (s : CanvasState) : CanvasState :=
  if s.activeTool = ToolType.draw_polyline then
    match s.currentShape with
    | some c =>
        let s1 := saveState s
        { s1 with userShapes := s1.userShapes ++ [c], currentShape := none }
    | none => s
  else s

/-! ### Tool palette button handlers -/

/-- Embeds the select button: `setActiveTool('select')` only. -/
def clickSelectTool (s : CanvasState) : CanvasState :=
  { s with activeTool := ToolType.select }

/-- Embeds the measure button. -/
def clickMeasureTool (s : CanvasState) : CanvasState :=
  { s with activeTool := ToolType.measure, measureStart := none }

/-- Embeds the rectangle button. -/
def clickDrawRectTool (s : CanvasState) : CanvasState :=
  { s with activeTool := ToolType.draw_rect, currentShape := none }

/-- Embeds the circle button. -/
def clickDrawCircleTool (s : CanvasState) : CanvasState :=
  { s with activeTool := ToolType.draw_circle, currentShape := none }

/-- Embeds the polyline button. -/
def clickDrawPolylineTool (s : CanvasState) : CanvasState :=
  { s with activeTool := ToolType.draw_polyline, currentShape := none }

/-- Embeds the arc button. -/
def clickDrawArcTool (s : CanvasState) : CanvasState :=
  { s with activeTool := ToolType.draw_arc, currentShape := none, drawStep := 0 }

/-- Embeds the detail button: `setActiveTool('detail')` only. -/
def clickDetailTool (s : CanvasState) : CanvasState :=
  { s with activeTool := ToolType.detail }

/-! ### Hit testing (`handleElementClick`) -/

/-- A rendered DOM node as the hit test sees it: its identifier (empty
when absent), tag name, attribute list, rendered bounding box, and whether
it is the root svg element (`current === svgRef.current`). -/
structure DomNode where
  id : String
  tagName : String
  attrs : List (String × String)
  bbox : BBox
  isSvgRoot : Bool
deriving DecidableEq

/-- Models `getAttribute`. -/
def getAttr (n : DomNode) (name : String) : Option String :=
  (n.attrs.find? (fun p => p.1 == name)).map (fun p => p.2)

/-- The loop's eligibility test:
`current.id && !current.id.startsWith('grid') && !current.id.startsWith('arrow')`. -/
def identifiable (n : DomNode) : Bool :=
  !(n.id == "") && !(jsStartsWith n.id "grid") && !(jsStartsWith n.id "arrow")

/-- The selection built from a hit node: identifier, declared `data-type`
(or the tag name when absent), all attributes verbatim, and the rendered
bounding box. -/
def selectionOf (n : DomNode) : SelectedElement :=
  { id := n.id,
    type := (getAttr n "data-type").getD n.tagName,
    attributes := n.attrs,
    bbox := n.bbox }

/-- The ancestor walk: stops at the svg root, examines at most 5 levels
(depths 0 through 4), returns the first eligible node. -/
def walkUp : List DomNode → ℕ → Option SelectedElement
  | [], _ => none
  | n :: rest, depth =>
      if n.isSvgRoot then none
      else if depth < 5 then
        if identifiable n then some (selectionOf n)
        else walkUp rest (depth + 1)
      else none

/-- Embeds `handleElementClick` as a function from the clicked node's
ancestor chain (clicked node first) to the new selection; `none` means the
selection is cleared. -/
def handleElementClick (chain : List DomNode) : Option SelectedElement :=
  match chain with
  | [] => none
  | target :: _ =>
      if target.isSvgRoot || target.tagName == "svg" || target.id == "grid-layer" then
        none
      else walkUp chain 0

/-! ### Concrete states and traces used by counterexamples and witnesses -/

/-- A concrete initial canvas state, as produced by the reset effect for a
document with bounds `0 0 100 100`. -/
def initCanvas : CanvasState :=
  { viewState := some ⟨0, 0, 100, 100⟩
    isPanning := false
    cursorPos := none
    activeTool := ToolType.select
    measureStart := none
    measurements := []
    userShapes := []
    currentShape := none
    drawStep := 0
    history := []
    future := []
    selectedElement := none }

/-- Number of vertices of a polyline payload. -/
def vertexCount : ShapeData → ℕ
  | ShapeData.polyline pts => pts.length
  | _ => 0

/-- The C2 event trace: polyline tool, clicks at (0,0), (1,0), (1,1)
(each preceded by the pointer move that set the snapped cursor), then a
double click. -/
def c2trace : CanvasState :=
  onDoubleClick (onMouseDown 3 0 (onMouseMoveWorld ⟨1, 1⟩
    (onMouseDown 2 0 (onMouseMoveWorld ⟨1, 0⟩
      (onMouseDown 1 0 (onMouseMoveWorld ⟨0, 0⟩
        { initCanvas with activeTool := ToolType.draw_polyline }))))))

/-- The C3 event trace: rect tool, press at (0,0), drag to (2,3), switch
to the select tool, then release. -/
def c3trace : CanvasState :=
  onMouseUp (clickSelectTool (onMouseMoveWorld ⟨2, 3⟩
    (onMouseDown 1 0 (onMouseMoveWorld ⟨0, 0⟩
      { initCanvas with activeTool := ToolType.draw_rect }))))

/-- The C4 event trace: rect tool, press at (0,0), drag to (5,0) (zero
height), release. -/
def c4trace : CanvasState :=
  onMouseUp (onMouseMoveWorld ⟨5, 0⟩
    (onMouseDown 1 0 (onMouseMoveWorld ⟨0, 0⟩
      { initCanvas with activeTool := ToolType.draw_rect })))

/-- Measure tool: two clicks at the same point (0,0). -/
def c7traceSame : CanvasState :=
  onMouseDown 2 0 (onMouseMoveWorld ⟨0, 0⟩
    (onMouseDown 1 0 (onMouseMoveWorld ⟨0, 0⟩
      { initCanvas with activeTool := ToolType.measure })))

/-- Measure tool: clicks at (0,0) then (3,4). -/
def c7traceDiag : CanvasState :=
  onMouseDown 2 0 (onMouseMoveWorld ⟨3, 4⟩
    (onMouseDown 1 0 (onMouseMoveWorld ⟨0, 0⟩
      { initCanvas with activeTool := ToolType.measure })))

/-- The generic polyline gesture: clicks at `p0`, `p1`, `p2` (each
preceded by its pointer move) followed by a double click. -/
def c2run (s : CanvasState) (n1 n2 n3 : ℕ) (p0 p1 p2 : Pt) : CanvasState :=
  onDoubleClick (onMouseDown n3 0 (onMouseMoveWorld p2
    (onMouseDown n2 0 (onMouseMoveWorld p1
      (onMouseDown n1 0 (onMouseMoveWorld p0 s))))))

/-- The state in the middle of a rect gesture: press at `p0`, drag to
`p1`, no release yet. -/
def c3mid (s : CanvasState) (n : ℕ) (p0 p1 : Pt) : CanvasState :=
  onMouseMoveWorld p1 (onMouseDown n 0 (onMouseMoveWorld p0 s))

/-- Mid-gesture tool switch to select, then the release. -/
def c3switched (s : CanvasState) (n : ℕ) (p0 p1 : Pt) : CanvasState :=
  onMouseUp (clickSelectTool (c3mid s n p0 p1))

/-- A state with the polyline tool armed. -/
def polyState : CanvasState :=
  { initCanvas with activeTool := ToolType.draw_polyline }

/-- A state with the rect tool armed and a valid in-progress rectangle. -/
def rectState : CanvasState :=
  { initCanvas with activeTool := ToolType.draw_rect,
                    currentShape := some ⟨7, ShapeData.rect 0 0 3 2 0 0, shapeGreen⟩ }

/-- A state mid-measurement: measure tool, first point recorded at (0,0),
cursor at (3,4). -/
def measureState : CanvasState :=
  { initCanvas with activeTool := ToolType.measure,
                    cursorPos := some ⟨3, 4⟩,
                    measureStart := some ⟨0, 0⟩ }

/-- An anonymous (identifier-less) intermediate node. -/
def nodeAnon : DomNode := ⟨"", "g", [], ⟨0, 0, 1, 1⟩, false⟩

/-- A background grid node, skipped by the walk. -/
def nodeGrid : DomNode := ⟨"grid-main", "g", [], ⟨0, 0, 2, 2⟩, false⟩

/-- A clicked leaf node with no identifier. -/
def nodeTarget : DomNode := ⟨"", "path", [("stroke", "#fff")], ⟨0, 0, 1, 1⟩, false⟩

/-- An identified element with a declared data type. -/
def nodeBeam : DomNode :=
  ⟨"beam-7", "g", [("data-type", "beam")], ⟨1, 2, 3, 4⟩, false⟩

/-! ## History round-trip (C1) -/

theorem undo_after_commits (l : List (List UserShape)) :
    ∀ (a : List UserShape) (s : CanvasState),
      handleUndo^[(a :: l).length] ((a :: l).foldl commitShapes s) =
        { s with future := a :: l } := by
  induction l with
  | nil =>
      intro a s
      simp [handleUndo, commitShapes, saveState, List.getLast?_concat]
  | cons b l' ih =>
      intro a s
      have hstep : (a :: b :: l').length = (b :: l').length + 1 := by simp
      rw [hstep, Function.iterate_succ']
      show handleUndo (handleUndo^[(b :: l').length]
        ((b :: l').foldl commitShapes (commitShapes s a))) = _
      rw [ih b (commitShapes s a)]
      simp [handleUndo, commitShapes, saveState, List.getLast?_concat]

theorem redo_restores (l : List (List UserShape)) :
    ∀ (a : List UserShape) (s : CanvasState),
      handleRedo^[(a :: l).length] { s with future := a :: l } =
        (a :: l).foldl commitShapes s := by
  induction l with
  | nil =>
      intro a s
      simp [handleRedo, commitShapes, saveState]
  | cons b l' ih =>
      intro a s
      have hstep : (a :: b :: l').length = (b :: l').length + 1 := by simp
      rw [hstep, Function.iterate_succ]
      show handleRedo^[(b :: l').length] (handleRedo { s with future := a :: b :: l' }) = _
      have h1 : handleRedo { s with future := a :: b :: l' } =
          { commitShapes s a with future := b :: l' } := by
        simp [handleRedo, commitShapes, saveState]
      rw [h1, ih b (commitShapes s a)]
      rfl

/-- C1: for any finite sequence of commits, undoing that many times returns
the shape list to its pre-sequence value, redoing that many times restores
the post-sequence value, and undo (resp. redo) on an empty past
(resp. future) stack is a no-op. -/
theorem c1_history_roundtrip (s : CanvasState) (l : List (List UserShape))
    (t : CanvasState) (hp : t.history = []) (hf : t.future = []) :
    (handleUndo^[l.length] (l.foldl commitShapes s)).userShapes = s.userShapes
    ∧ (handleRedo^[l.length] (handleUndo^[l.length] (l.foldl commitShapes s))).userShapes
        = (l.foldl commitShapes s).userShapes
    ∧ handleUndo t = t ∧ handleRedo t = t := by
  have hu : handleUndo t = t := by
    unfold handleUndo
    rw [hp]
    rfl
  have hr : handleRedo t = t := by
    unfold handleRedo
    rw [hf]
  refine ⟨?_, ?_, hu, hr⟩
  · cases l with
    | nil => simp
    | cons a l' => rw [undo_after_commits l' a s]
  · cases l with
    | nil => simp
    | cons a l' =>
        rw [undo_after_commits l' a s]
        rw [redo_restores l' a s]

/-- Witness for C1 at a concrete state and a one-commit sequence. -/
theorem c1_history_roundtrip_witness :
    initCanvas.history = [] ∧ initCanvas.future = [] ∧
    ((handleUndo^[1] ([[⟨1, ShapeData.circle 0 0 1, shapeGreen⟩]].foldl commitShapes
        initCanvas)).userShapes = initCanvas.userShapes
      ∧ (handleRedo^[1] (handleUndo^[1] ([[⟨1, ShapeData.circle 0 0 1, shapeGreen⟩]].foldl
            commitShapes initCanvas))).userShapes
          = ([[⟨1, ShapeData.circle 0 0 1, shapeGreen⟩]].foldl commitShapes
              initCanvas).userShapes
      ∧ handleUndo initCanvas = initCanvas ∧ handleRedo initCanvas = initCanvas) :=
  ⟨rfl, rfl, c1_history_roundtrip initCanvas [[⟨1, ShapeData.circle 0 0 1, shapeGreen⟩]]
    initCanvas rfl rfl⟩

/-! ## Document reset (C6) -/

/-- C6: arrival of a document with new bounds sets the viewport to exactly
those bounds and empties the shape list, the undo and redo stacks, the
measurement list and the selection, in one atomic transition (the six
updates are batched inside a single effect, so no intermediate state
exists in the model). -/
theorem c6_document_reset (b : ViewState) (s : CanvasState) :
    (resetForDocument b s).viewState = some b
    ∧ (resetForDocument b s).userShapes = []
    ∧ (resetForDocument b s).history = []
    ∧ (resetForDocument b s).future = []
    ∧ (resetForDocument b s).measurements = []
    ∧ (resetForDocument b s).selectedElement = none :=
  ⟨rfl, rfl, rfl, rfl, rfl, rfl⟩

/-! ## Zoom (C9) -/

/-- C9 counterexample: the zoom-out control divides by factor 0.8, not
0.8333, so at the initial viewport the two disagree. -/
theorem c9_zoom_counterexample :
    (handleZoomOut initCanvas).viewState ≠ (handleZoom 0.8333 initCanvas).viewState := by
  norm_num [handleZoomOut, handleZoom, initCanvas]

/-- C9 (amended): for every initialised viewport and factor ≠ 0, zoom
replaces the dimensions by `w / factor` and `h / factor` while keeping the
center fixed; the zoom-in control invokes zoom with factor 1.2 and the
zoom-out control with factor 0.8. -/
theorem c9_zoom_center (s : CanvasState) (v : ViewState) (factor : ℚ)
    (hv : s.viewState = some v) (hf : factor ≠ 0) :
    (handleZoom factor s).viewState =
      some ⟨v.x + (v.w - v.w / factor) / 2, v.y + (v.h - v.h / factor) / 2,
        v.w / factor, v.h / factor⟩
    ∧ (v.x + (v.w - v.w / factor) / 2) + (v.w / factor) / 2 = v.x + v.w / 2
    ∧ (v.y + (v.h - v.h / factor) / 2) + (v.h / factor) / 2 = v.y + v.h / 2
    ∧ handleZoomIn = handleZoom 1.2 ∧ handleZoomOut = handleZoom 0.8 := by
  refine ⟨?_, by ring, by ring, rfl, rfl⟩
  simp [handleZoom, hv]

/-- Witness for C9 at the initial viewport with factor 2. -/
theorem c9_zoom_center_witness :
    initCanvas.viewState = some ⟨0, 0, 100, 100⟩ ∧ (2 : ℚ) ≠ 0 ∧
    (handleZoom 2 initCanvas).viewState = some ⟨25, 25, 50, 50⟩ := by
  refine ⟨rfl, by norm_num, ?_⟩
  have h := (c9_zoom_center initCanvas ⟨0, 0, 100, 100⟩ 2 rfl (by norm_num)).1
  rw [h]
  norm_num

/-! ## Undo/redo frame effect (C10) -/

/-- C10: undo and redo change only the shape list and the two history
stacks; the measurement list, viewport, selection, active tool, draw
step, in-progress shape, measure start, cursor and panning flag are left
unchanged. -/
theorem c10_undo_redo_frame (s : CanvasState) :
    ((handleUndo s).measurements = s.measurements
      ∧ (handleUndo s).viewState = s.viewState
      ∧ (handleUndo s).selectedElement = s.selectedElement
      ∧ (handleUndo s).activeTool = s.activeTool
      ∧ (handleUndo s).drawStep = s.drawStep
      ∧ (handleUndo s).currentShape = s.currentShape
      ∧ (handleUndo s).measureStart = s.measureStart
      ∧ (handleUndo s).cursorPos = s.cursorPos
      ∧ (handleUndo s).isPanning = s.isPanning)
    ∧ ((handleRedo s).measurements = s.measurements
      ∧ (handleRedo s).viewState = s.viewState
      ∧ (handleRedo s).selectedElement = s.selectedElement
      ∧ (handleRedo s).activeTool = s.activeTool
      ∧ (handleRedo s).drawStep = s.drawStep
      ∧ (handleRedo s).currentShape = s.currentShape
      ∧ (handleRedo s).measureStart = s.measureStart
      ∧ (handleRedo s).cursorPos = s.cursorPos
      ∧ (handleRedo s).isPanning = s.isPanning) := by
  constructor
  · unfold handleUndo
    cases s.history.getLast? <;> simp
  · unfold handleRedo
    cases s.future <;> simp

/-! ## Polyline commit (C2) -/

set_option maxHeartbeats 1000000

/-- C2 counterexample: for the claimed trace the code commits one polyline
with 4 vertices (the live duplicate of the final vertex is retained), not
3, while pushing one history frame. -/
theorem c2_polyline_counterexample :
    c2trace.userShapes.length = 1
    ∧ c2trace.history.length = 1
    ∧ c2trace.userShapes.map (fun sh => vertexCount sh.data) = [4]
    ∧ c2trace.userShapes.map (fun sh => vertexCount sh.data) ≠ [3] := by
  refine ⟨?_, ?_, ?_, ?_⟩ <;>
  norm_num [c2trace, initCanvas, onDoubleClick, onMouseDown, onMouseMoveWorld,
    updateDrawingPreview, handleDrawingStart, saveState, vertexCount]

/-- C2 (amended): with the polyline tool and no shape in progress, clicks
at `p0`, `p1`, `p2` (pointer moves between clicks updating only the live
last vertex) followed by a double click commit exactly one polyline whose
vertex list is `[p0, p1, p2, p2]` — four vertices, the live-preview
duplicate of the final vertex is retained — and push exactly one history
frame. -/
theorem c2_polyline_commit (s : CanvasState) (n1 n2 n3 : ℕ) (p0 p1 p2 : Pt)
    (ht : s.activeTool = ToolType.draw_polyline) (hc : s.currentShape = none) :
    (c2run s n1 n2 n3 p0 p1 p2).userShapes
      = s.userShapes ++ [⟨n1, ShapeData.polyline [p0, p1, p2, p2], shapeGreen⟩]
    ∧ (c2run s n1 n2 n3 p0 p1 p2).history = s.history ++ [s.userShapes]
    ∧ (c2run s n1 n2 n3 p0 p1 p2).future = []
    ∧ (c2run s n1 n2 n3 p0 p1 p2).currentShape = none := by
  refine ⟨?_, ?_, ?_, ?_⟩ <;>
  simp [c2run, onDoubleClick, onMouseDown, onMouseMoveWorld, updateDrawingPreview,
    handleDrawingStart, saveState, ht, hc]

/-- Witness for C2 at the concrete three-click trace of the claim. -/
theorem c2_polyline_commit_witness :
    polyState.activeTool = ToolType.draw_polyline
    ∧ polyState.currentShape = none
    ∧ (c2run polyState 1 2 3 ⟨0, 0⟩ ⟨1, 0⟩ ⟨1, 1⟩).userShapes
        = polyState.userShapes
            ++ [⟨1, ShapeData.polyline [⟨0, 0⟩, ⟨1, 0⟩, ⟨1, 1⟩, ⟨1, 1⟩], shapeGreen⟩] :=
  ⟨rfl, rfl, (c2_polyline_commit polyState 1 2 3 ⟨0, 0⟩ ⟨1, 0⟩ ⟨1, 1⟩ rfl rfl).1⟩

/-! ## Tool switch (C3) -/

/-- C3 counterexample: starting a rect gesture, switching to the select
tool, then releasing, leaves the in-progress shape in place (`currentShape`
is not cleared, so the shape is not discarded and remains rendered as a
preview); the committed list and history are unchanged. -/
theorem c3_tool_switch_counterexample :
    c3trace.currentShape ≠ none
    ∧ c3trace.userShapes = []
    ∧ c3trace.history = [] := by
  refine ⟨?_, ?_, ?_⟩ <;>
  · norm_num [c3trace, initCanvas, onMouseUp, onMouseDown, onMouseMoveWorld,
      updateDrawingPreview, handleDrawingStart, clickSelectTool, saveState]
    first
    | rfl
    | (rw [if_neg (by decide :
          ¬(ToolType.select = ToolType.draw_rect ∨ ToolType.select = ToolType.draw_circle))]
       simp)

/-- C3 (amended): switching to a drawing tool discards the in-progress
shape (the arc button also resets the step), but switching to select,
measure or detail leaves it in place as an uncommitted preview; no tool
button touches the committed shape list or the history stacks, and in the
rect-then-select scenario the release commits nothing, pushes no frame,
and keeps the abandoned shape as the in-progress preview. -/
theorem c3_tool_switch (s : CanvasState) (n : ℕ) (p0 p1 : Pt)
    (ht : s.activeTool = ToolType.draw_rect) (hc : s.currentShape = none) :
    (∀ u : CanvasState,
      (clickSelectTool u).currentShape = u.currentShape
      ∧ (clickMeasureTool u).currentShape = u.currentShape
      ∧ (clickDetailTool u).currentShape = u.currentShape
      ∧ (clickDrawRectTool u).currentShape = none
      ∧ (clickDrawCircleTool u).currentShape = none
      ∧ (clickDrawPolylineTool u).currentShape = none
      ∧ (clickDrawArcTool u).currentShape = none)
    ∧ (∀ u : CanvasState,
      (clickSelectTool u).userShapes = u.userShapes
      ∧ (clickMeasureTool u).userShapes = u.userShapes
      ∧ (clickDetailTool u).userShapes = u.userShapes
      ∧ (clickDrawRectTool u).userShapes = u.userShapes
      ∧ (clickDrawCircleTool u).userShapes = u.userShapes
      ∧ (clickDrawPolylineTool u).userShapes = u.userShapes
      ∧ (clickDrawArcTool u).userShapes = u.userShapes)
    ∧ (∀ u : CanvasState,
      (clickSelectTool u).history = u.history
      ∧ (clickMeasureTool u).history = u.history
      ∧ (clickDetailTool u).history = u.history
      ∧ (clickDrawRectTool u).history = u.history
      ∧ (clickDrawCircleTool u).history = u.history
      ∧ (clickDrawPolylineTool u).history = u.history
      ∧ (clickDrawArcTool u).history = u.history)
    ∧ (c3switched s n p0 p1).userShapes = s.userShapes
    ∧ (c3switched s n p0 p1).history = s.history
    ∧ (c3switched s n p0 p1).future = s.future
    ∧ (c3switched s n p0 p1).currentShape = (c3mid s n p0 p1).currentShape
    ∧ (c3mid s n p0 p1).currentShape ≠ none := by
  refine ⟨fun u => ⟨rfl, rfl, rfl, rfl, rfl, rfl, rfl⟩,
    fun u => ⟨rfl, rfl, rfl, rfl, rfl, rfl, rfl⟩,
    fun u => ⟨rfl, rfl, rfl, rfl, rfl, rfl, rfl⟩, ?_, ?_, ?_, ?_, ?_⟩ <;>
  simp [c3switched, c3mid, clickSelectTool, onMouseUp, onMouseDown,
    onMouseMoveWorld, updateDrawingPreview, handleDrawingStart, ht, hc]

/-- Witness for C3 at the concrete rect-then-select scenario. -/
theorem c3_tool_switch_witness :
    ({ initCanvas with activeTool := ToolType.draw_rect } : CanvasState).activeTool
        = ToolType.draw_rect
    ∧ ({ initCanvas with activeTool := ToolType.draw_rect } : CanvasState).currentShape = none
    ∧ (c3switched { initCanvas with activeTool := ToolType.draw_rect } 1 ⟨0, 0⟩ ⟨2, 3⟩).userShapes
        = ({ initCanvas with activeTool := ToolType.draw_rect } : CanvasState).userShapes :=
  ⟨rfl, rfl,
    (c3_tool_switch { initCanvas with activeTool := ToolType.draw_rect } 1 ⟨0, 0⟩ ⟨2, 3⟩
      rfl rfl).2.2.2.1⟩

/-! ## Degenerate-shape discard (C4) -/

/-- C4 counterexample: dragging a rect from (0,0) to (5,0) produces a
zero-height shape, which the code nevertheless stores (the validity test
checks only `w > 0`) while pushing a history frame. -/
theorem c4_degenerate_counterexample :
    c4trace.userShapes = [⟨1, ShapeData.rect 0 0 5 0 0 0, shapeGreen⟩]
    ∧ c4trace.history = [[]] := by
  constructor <;>
  norm_num [c4trace, initCanvas, onMouseUp, onMouseDown, onMouseMoveWorld,
    updateDrawingPreview, handleDrawingStart, saveState, dataW, dataR]

/-- C4 (amended): on release with the rect tool the in-progress shape is
appended (with one history frame) exactly when its width is positive —
the height is not checked, so a zero-height, positive-width rect is
committed; with the circle tool exactly when its radius is positive.  A
discarded shape leaves the list and both stacks unchanged. -/
theorem c4_commit_validity (s : CanvasState) (c : UserShape)
    (hc : s.currentShape = some c) :
    (s.activeTool = ToolType.draw_rect →
      (dataW c.data > 0 →
        (onMouseUp s).userShapes = s.userShapes ++ [c]
        ∧ (onMouseUp s).history = s.history ++ [s.userShapes]
        ∧ (onMouseUp s).future = []
        ∧ (onMouseUp s).currentShape = none)
      ∧ (¬ dataW c.data > 0 →
        (onMouseUp s).userShapes = s.userShapes
        ∧ (onMouseUp s).history = s.history
        ∧ (onMouseUp s).future = s.future
        ∧ (onMouseUp s).currentShape = none))
    ∧ (s.activeTool = ToolType.draw_circle →
      (dataR c.data > 0 →
        (onMouseUp s).userShapes = s.userShapes ++ [c]
        ∧ (onMouseUp s).history = s.history ++ [s.userShapes]
        ∧ (onMouseUp s).future = []
        ∧ (onMouseUp s).currentShape = none)
      ∧ (¬ dataR c.data > 0 →
        (onMouseUp s).userShapes = s.userShapes
        ∧ (onMouseUp s).history = s.history
        ∧ (onMouseUp s).future = s.future
        ∧ (onMouseUp s).currentShape = none)) := by
  constructor
  · intro ht
    constructor <;> intro hw <;> refine ⟨?_, ?_, ?_, ?_⟩ <;>
      simp [onMouseUp, saveState, hc, ht, hw]
  · intro ht
    constructor <;> intro hw <;> refine ⟨?_, ?_, ?_, ?_⟩ <;>
      simp [onMouseUp, saveState, hc, ht, hw]

/-- Witness for C4: a 3×2 rect in progress is committed on release. -/
theorem c4_commit_validity_witness :
    rectState.currentShape = some ⟨7, ShapeData.rect 0 0 3 2 0 0, shapeGreen⟩
    ∧ rectState.activeTool = ToolType.draw_rect
    ∧ dataW (ShapeData.rect 0 0 3 2 0 0) > 0
    ∧ ((onMouseUp rectState).userShapes
          = rectState.userShapes ++ [⟨7, ShapeData.rect 0 0 3 2 0 0, shapeGreen⟩]
        ∧ (onMouseUp rectState).history = rectState.history ++ [rectState.userShapes]
        ∧ (onMouseUp rectState).future = []
        ∧ (onMouseUp rectState).currentShape = none) := by
  refine ⟨rfl, rfl, by norm_num [dataW], ?_⟩
  exact ((c4_commit_validity rectState ⟨7, ShapeData.rect 0 0 3 2 0 0, shapeGreen⟩ rfl).1
    rfl).1 (by norm_num [dataW])

/-! ## Measurement commit threshold (C7) -/

/-- C7: on the second measure click, a measurement is committed exactly
when the squared distance exceeds 0.01², `measureStart` is cleared
regardless, two clicks at the same point add nothing, and clicks at (0,0)
then (3,4) add one measurement with stored distance 5 (5.000 rounded to 3
decimal places). -/
theorem c7_measure_threshold (s : CanvasState) (now : ℕ) (ms pos : Pt)
    (ht : s.activeTool = ToolType.measure) (hcur : s.cursorPos = some pos)
    (hms : s.measureStart = some ms) :
    (onMouseDown now 0 s).measureStart = none
    ∧ ((pos.x - ms.x) ^ 2 + (pos.y - ms.y) ^ 2 > (1 / 100) ^ 2 →
        (onMouseDown now 0 s).measurements = s.measurements ++
          [⟨ms, pos, round3 (ratSqrt ((pos.x - ms.x) ^ 2 + (pos.y - ms.y) ^ 2))⟩])
    ∧ (¬ ((pos.x - ms.x) ^ 2 + (pos.y - ms.y) ^ 2 > (1 / 100) ^ 2) →
        (onMouseDown now 0 s).measurements = s.measurements)
    ∧ c7traceSame.measurements = []
    ∧ c7traceSame.measureStart = none
    ∧ c7traceDiag.measurements = [⟨⟨0, 0⟩, ⟨3, 4⟩, 5⟩]
    ∧ c7traceDiag.measureStart = none := by
  refine ⟨?_, ?_, ?_, ?_, ?_, ?_, ?_⟩
  · by_cases hd : (pos.x - ms.x) ^ 2 + (pos.y - ms.y) ^ 2 > (1 / 100) ^ 2
    · simp only [onMouseDown, ht, hcur, hms]
      rw [if_pos hd]
      simp
    · simp only [onMouseDown, ht, hcur, hms]
      rw [if_neg hd]
      simp
  · intro hd
    simp only [onMouseDown, ht, hcur, hms]
    rw [if_pos hd]
    simp
  · intro hd
    simp only [onMouseDown, ht, hcur, hms]
    rw [if_neg hd]
    simp
  · norm_num [c7traceSame, initCanvas, onMouseDown, onMouseMoveWorld,
      updateDrawingPreview, handleDrawingStart, round3, ratSqrt]
  · norm_num [c7traceSame, initCanvas, onMouseDown, onMouseMoveWorld,
      updateDrawingPreview, handleDrawingStart, round3, ratSqrt]
  · norm_num [c7traceDiag, initCanvas, onMouseDown, onMouseMoveWorld,
      updateDrawingPreview, handleDrawingStart, round3, ratSqrt, natSqrt, natSqrtAux,
      Rat.den_ofNat]
  · norm_num [c7traceDiag, initCanvas, onMouseDown, onMouseMoveWorld,
      updateDrawingPreview, handleDrawingStart, round3, ratSqrt, natSqrt, natSqrtAux,
      Rat.den_ofNat]

/-- Witness for C7 at a state mid-measurement from (0,0) with the cursor
at (3,4). -/
theorem c7_measure_threshold_witness :
    measureState.activeTool = ToolType.measure
    ∧ measureState.cursorPos = some ⟨3, 4⟩
    ∧ measureState.measureStart = some ⟨0, 0⟩
    ∧ (onMouseDown 9 0 measureState).measureStart = none :=
  ⟨rfl, rfl, rfl, (c7_measure_threshold measureState 9 ⟨0, 0⟩ ⟨3, 4⟩ rfl rfl rfl).1⟩

/-! ## Bounds parsing (C5) -/

/-- C5 counterexample: the parser checks only the token count, not
numericness — four non-numeric tokens are adopted as four NaN entries
rather than replaced by the default rectangle. -/
theorem c5_bounds_counterexample :
    baseViewBox "a b c d" = [none, none, none, none]
    ∧ baseViewBox "a b c d" ≠ [some 0, some 0, some 100, some 100] :=
  ⟨by decide, by decide⟩

/-- C5 (amended): the fallback `[0, 0, 100, 100]` applies exactly when the
trimmed bounds string does not split into exactly four whitespace-separated
tokens; four tokens are adopted verbatim after `Number` conversion (so four
numeric tokens parse to exactly those numbers, while non-numeric tokens
yield NaN entries instead of the default), and the parse is total — it
never fails. -/
theorem c5_bounds_fallback (s : String) :
    ((jsSplitWs (jsTrim s)).length ≠ 4 →
      baseViewBox s = [some 0, some 0, some 100, some 100])
    ∧ (∀ a b c d : ℚ, (jsSplitWs (jsTrim s)).map jsNumber
          = [some a, some b, some c, some d] →
        baseViewBox s = [some a, some b, some c, some d]) := by
  constructor
  · intro h
    unfold baseViewBox
    rw [if_neg]
    simpa using h
  · intro a b c d h
    unfold baseViewBox
    rw [h]
    rfl

/-- Witness for C5: a malformed two-token string falls back, a well-formed
four-number string parses to its numbers. -/
theorem c5_bounds_fallback_witness :
    (jsSplitWs (jsTrim "1 2")).length ≠ 4
    ∧ baseViewBox "1 2" = [some 0, some 0, some 100, some 100]
    ∧ (jsSplitWs (jsTrim "7 8 200 300")).map jsNumber
        = [some 7, some 8, some 200, some 300]
    ∧ baseViewBox "7 8 200 300" = [some 7, some 8, some 200, some 300] := by
  refine ⟨by decide, ?_, by decide, ?_⟩
  · exact (c5_bounds_fallback "1 2").1 (by decide)
  · exact (c5_bounds_fallback "7 8 200 300").2 7 8 200 300 (by decide)

/-! ## Hit testing (C8) -/

theorem walkUp_skip (chain : List DomNode) :
    ∀ depth : ℕ, (∀ n ∈ chain.take (5 - depth), identifiable n = false) →
      walkUp chain depth = none := by
  induction chain with
  | nil => intro depth _; rfl
  | cons n rest ih =>
      intro depth h
      by_cases hr : n.isSvgRoot
      · simp [walkUp, hr]
      · by_cases hd : depth < 5
        · have h5 : 5 - depth = (5 - (depth + 1)) + 1 := by omega
          have hn : identifiable n = false := by
            apply h
            rw [h5, List.take_succ_cons]
            exact List.mem_cons_self n _
          simp only [walkUp, hr, hd, hn, if_false, if_true, Bool.false_eq_true,
            ite_false, ite_true]
          apply ih
          intro m hm
          apply h
          rw [h5, List.take_succ_cons]
          exact List.mem_cons_of_mem n hm
        · simp [walkUp, hr, hd]

theorem walkUp_finds (front : List DomNode) :
    ∀ (e : DomNode) (rest : List DomNode) (depth : ℕ),
      depth + front.length < 5 →
      (∀ n ∈ front, identifiable n = false ∧ n.isSvgRoot = false) →
      e.isSvgRoot = false → identifiable e = true →
      walkUp (front ++ e :: rest) depth = some (selectionOf e) := by
  induction front with
  | nil =>
      intro e rest depth hd _ he hi
      have : depth < 5 := by omega
      simp [walkUp, he, hi, this]
  | cons n front' ih =>
      intro e rest depth hd hf he hi
      have hn := hf n (List.mem_cons_self n front')
      have hlt : depth < 5 := by
        simp only [List.length_cons] at hd
        omega
      simp only [List.cons_append, walkUp, hn.1, hn.2, hlt, if_false, if_true,
        Bool.false_eq_true, ite_false, ite_true]
      apply ih
      · simp only [List.length_cons] at hd
        omega
      · intro m hm
        exact hf m (List.mem_cons_of_mem n hm)
      · exact he
      · exact hi

/-- C8: the hit test walks at most 5 levels from the clicked node (the
node itself plus four ancestors), skipping nodes with empty or
`grid`/`arrow`-prefixed identifiers; an eligible element 6 ancestors up is
out of reach (no selection), one 4 ancestors up is selected, and when
nothing eligible lies within reach the selection is cleared. -/
theorem c8_hit_test (t : DomNode) (mid : List DomNode) (e : DomNode)
    (rest : List DomNode)
    (htRoot : t.isSvgRoot = false) (htTag : t.tagName ≠ "svg")
    (htId : t.id ≠ "grid-layer") (htSkip : identifiable t = false)
    (hmid : ∀ n ∈ mid, identifiable n = false ∧ n.isSvgRoot = false)
    (heRoot : e.isSvgRoot = false) (heId : identifiable e = true) :
    (mid.length = 5 → handleElementClick (t :: (mid ++ e :: rest)) = none)
    ∧ (mid.length = 3 →
        handleElementClick (t :: (mid ++ e :: rest)) = some (selectionOf e))
    ∧ (∀ chain : List DomNode,
        (∀ n ∈ chain.take 5, identifiable n = false) →
        handleElementClick chain = none) := by
  have hpre : (t.isSvgRoot || t.tagName == "svg" || t.id == "grid-layer") = false := by
    simp [htRoot, htTag, htId]
  refine ⟨?_, ?_, ?_⟩
  · intro h5
    simp only [handleElementClick, hpre, Bool.false_eq_true, if_false, ite_false]
    apply walkUp_skip
    intro n hn
    have htake : (t :: (mid ++ e :: rest)).take (5 - 0) = t :: mid.take 4 := by
      rw [show (5 - 0) = 4 + 1 from rfl, List.take_succ_cons,
        List.take_append_of_le_length (by omega)]
    rw [htake] at hn
    rcases List.mem_cons.mp hn with h | h
    · rw [h]; exact htSkip
    · exact (hmid n (List.take_subset 4 mid h)).1
  · intro h3
    simp only [handleElementClick, hpre, Bool.false_eq_true, if_false, ite_false]
    have hchain : t :: (mid ++ e :: rest) = (t :: mid) ++ e :: rest := rfl
    rw [hchain]
    apply walkUp_finds
    · simp [h3]
    · intro n hn
      rcases List.mem_cons.mp hn with h | h
      · rw [h]; exact ⟨htSkip, htRoot⟩
      · exact hmid n h
    · exact heRoot
    · exact heId
  · intro chain h
    cases chain with
    | nil => rfl
    | cons a rest' =>
        simp only [handleElementClick]
        by_cases hb : (a.isSvgRoot || a.tagName == "svg" || a.id == "grid-layer") = true
        · simp [hb]
        · simp only [hb, if_false, ite_false, Bool.not_eq_true] at *
          rw [if_neg (by simp [hb])]
          apply walkUp_skip
          simpa using h

/-- Witness for C8 at a concrete chain: an anonymous target, two anonymous
ancestors and a grid node, then an identified beam element at depth 4. -/
theorem c8_hit_test_witness :
    nodeTarget.isSvgRoot = false ∧ nodeTarget.tagName ≠ "svg"
    ∧ nodeTarget.id ≠ "grid-layer" ∧ identifiable nodeTarget = false
    ∧ (∀ n ∈ [nodeAnon, nodeGrid, nodeAnon],
        identifiable n = false ∧ n.isSvgRoot = false)
    ∧ identifiable nodeBeam = true
    ∧ handleElementClick (nodeTarget :: ([nodeAnon, nodeGrid, nodeAnon] ++ nodeBeam :: []))
        = some (selectionOf nodeBeam) := by
  refine ⟨rfl, by decide, by decide, by decide, by decide, by decide, ?_⟩
  exact (c8_hit_test nodeTarget [nodeAnon, nodeGrid, nodeAnon] nodeBeam []
    rfl (by decide) (by decide) (by decide) (by decide) rfl (by decide)).2.1 rfl
